import Mathlib

/-!
Verification of the bars/series query pipeline of the Trade-Review-UI backend
(`src/backend/src/data/bars.rs`), as a shallow embedding in Lean 4.

Modelling choices, stated once:
* An `f64` cell is modelled by `F64`: the pipeline never computes with the
  payload, it only copies values and tests `is_nan`, so a value is either NaN
  or an opaque numeric payload (represented by a rational).
* The Parquet source is modelled by `Frame`: a schema (`cols`, the set of
  column names physically present) plus a list of rows.  A nullable cell is an
  `Option`.  Polars' lazy `filter`/`select`/`sort`/`collect` pipeline is
  modelled by list filtering, a schema check (polars fails a `collect` whose
  plan references a column missing from the schema), and a sort.
* Rust `i64 /` is truncation toward zero, i.e. `Int.tdiv`.
* chrono's `NaiveDate::parse_from_str(value, "%Y-%m-%d")` is embedded by
  `parse_yyyy_mm_dd`: for each numeric item leading whitespace is skipped
  (modelled for the ASCII whitespace characters), `%Y` takes 1-4 digits or a
  sign followed by arbitrarily many, `%m`/`%d` take 1-2 digits, the literal
  `-` items must match exactly, the whole input must be consumed, and the
  resulting numbers must form a valid proleptic-Gregorian calendar date
  (chrono's representable year range included).  The error string keeps the
  Rust message minus the quote characters around the offending value.
-/

namespace TradeReview

/-- Model of an `f64` value as observed by `bars.rs`: either NaN or a numeric
payload that the pipeline copies verbatim. -/
inductive F64 where
  | nan : F64
  | num : Rat → F64
deriving DecidableEq, Repr

/-- `f64::is_nan`. -/
def F64.isNan : F64 → Bool
  | .nan => true
  | .num _ => false

/-- `models::Candle` (src/backend/src/models.rs): one OHLC candle.  The Rust
field `open` is spelled `open_` because `open` is a Lean keyword. -/
structure Candle where
  time : Int
  open_ : F64
  high : F64
  low : F64
  close : F64
deriving DecidableEq, Repr

/-- `models::IndicatorPoint`: one timestamped indicator sample. -/
structure IndicatorPoint where
  time : Int
  value : F64
deriving DecidableEq, Repr

/-- `models::IndicatorSeries`: one indicator line for the frontend. -/
structure IndicatorSeries where
  id : String
  name : String
  kind : String
  pane : String
  data : List IndicatorPoint
deriving DecidableEq, Repr

/-- One source row of the Parquet dataset: the columns `bars.rs` reads.  Every
cell is nullable.  Indicator cells are an association list keyed by column
name; a key absent from the list reads as null. -/
structure Bar where
  timestamp : Option Int
  contract : Option String
  open_ : Option F64
  high : Option F64
  low : Option F64
  close : Option F64
  indicators : List (String × Option F64)
deriving DecidableEq, Repr

/-- The Parquet dataset: its physical schema and its rows. -/
structure Frame where
  cols : List String
  rows : List Bar
deriving DecidableEq, Repr

/-- Reads row `r`'s cell of indicator column `indicator` (null when absent). -/
def getInd (r : Bar) (indicator : String) : Option F64 :=
  match r.indicators.lookup indicator with
  | some v => v
  | none => none

/-- `INDICATOR_COLUMNS` (bars.rs line 10): the fixed, ordered indicator
catalog. -/
def INDICATOR_COLUMNS : List String :=
  ["vwap", "vwapn", "vwapd", "ema_9", "ema_14", "ema_21",
   "rsi_14_ema", "rsi_14_wilder", "atr_14"]

/-! ### Date parsing (`parse_yyyy_mm_dd`, chrono `"%Y-%m-%d"`) -/

/-- ASCII digit test, as chrono's byte scanner uses (`b'0'..=b'9'`). -/
def isAsciiDigit (c : Char) : Bool := 48 ≤ c.toNat && c.toNat ≤ 57

/-- Numeric value of an ASCII digit. -/
def digitVal (c : Char) : Nat := c.toNat - 48

/-- Whitespace as skipped by chrono before a numeric item (`str::trim_start`),
modelled for the ASCII whitespace characters. -/
def isWsChar (c : Char) : Bool :=
  c.toNat = 32 || c.toNat = 9 || c.toNat = 10 ||
    c.toNat = 13 || c.toNat = 11 || c.toNat = 12

/-- Drops leading whitespace (`str::trim_start`). -/
def trimWs : List Char → List Char
  | [] => []
  | c :: rest => if isWsChar c then trimWs rest else c :: rest

/-- Consumes further digits after the first one, up to the remaining width
(`none` = unbounded, as chrono allows after an explicit sign). -/
def takeDigits (fuel : Option Nat) (acc : Nat) : List Char → Nat × List Char
  | [] => (acc, [])
  | c :: rest =>
    if fuel = some 0 then (acc, c :: rest)
    else if isAsciiDigit c then
      takeDigits (fuel.map (· - 1)) (acc * 10 + digitVal c) rest
    else (acc, c :: rest)

/-- chrono `scan::number` with minimum width 1: at least one leading digit,
then up to `maxw` digits in total. -/
def scanNumber (maxw : Option Nat) : List Char → Option (Nat × List Char)
  | [] => none
  | c :: rest =>
    if isAsciiDigit c then some (takeDigits (maxw.map (· - 1)) (digitVal c) rest)
    else none

/-- chrono's `%Y` item: skip whitespace; a `-`/`+` sign allows unboundedly many
digits, otherwise at most 4 are taken. -/
def scanYear (s0 : List Char) : Option (Int × List Char) :=
  match trimWs s0 with
  | [] => none
  | c :: rest =>
    if c = '-' then (scanNumber none rest).map (fun p => (-(p.1 : Int), p.2))
    else if c = '+' then (scanNumber none rest).map (fun p => ((p.1 : Int), p.2))
    else (scanNumber (some 4) (c :: rest)).map (fun p => ((p.1 : Int), p.2))

/-- chrono's `%m` / `%d` items: skip whitespace, then 1-2 digits. -/
def scanField2 (s0 : List Char) : Option (Nat × List Char) :=
  scanNumber (some 2) (trimWs s0)

/-- chrono literal item `-`: must match exactly. -/
def expectDash : List Char → Option (List Char)
  | [] => none
  | c :: rest => if c = '-' then some rest else none

/-- The syntactic part of chrono's parse of `"%Y-%m-%d"`; the whole input must
be consumed. -/
def parseYmdChars (s : List Char) : Option (Int × Nat × Nat) :=
  match scanYear s with
  | none => none
  | some (y, s1) =>
    match expectDash s1 with
    | none => none
    | some s2 =>
      match scanField2 s2 with
      | none => none
      | some (m, s3) =>
        match expectDash s3 with
        | none => none
        | some s4 =>
          match scanField2 s4 with
          | none => none
          | some (d, s5) => if s5 = [] then some (y, m, d) else none

/-- Proleptic-Gregorian leap-year rule, as chrono's year-flags table encodes
it (the table is indexed by `year.rem_euclid(400)`). -/
def isLeapYear (y : Int) : Bool :=
  y.emod 4 == 0 && (y.emod 100 != 0 || y.emod 400 == 0)

/-- Length of month `m` in year `y` (0 for an out-of-range month). -/
def daysInMonth (y : Int) (m : Nat) : Nat :=
  if m = 1 then 31 else if m = 2 then (if isLeapYear y then 29 else 28)
  else if m = 3 then 31 else if m = 4 then 30 else if m = 5 then 31
  else if m = 6 then 30 else if m = 7 then 31 else if m = 8 then 31
  else if m = 9 then 30 else if m = 10 then 31 else if m = 11 then 30
  else if m = 12 then 31 else 0

/-- chrono `NaiveDate::from_ymd_opt` succeeds: month and day in calendar
range, year within chrono's representable span. -/
def isValidYmd (y : Int) (m d : Nat) : Bool :=
  decide (-262143 ≤ y ∧ y ≤ 262142 ∧ 1 ≤ m ∧ m ≤ 12 ∧ 1 ≤ d ∧ d ≤ daysInMonth y m)

/-- A parsed calendar date (chrono `NaiveDate`). -/
structure Ymd where
  year : Int
  month : Nat
  day : Nat
deriving DecidableEq, Repr

/-- The error message of `parse_yyyy_mm_dd` (bars.rs line 296), minus the
quote characters around the value. -/
def invalidDateMsg (value : String) : String :=
  "Invalid date " ++ value ++ ". Expected YYYY-MM-DD."

/-- `parse_yyyy_mm_dd` (bars.rs lines 294-297). -/
def parse_yyyy_mm_dd (value : String) : Except String Ymd :=
  match parseYmdChars value.data with
  | some (y, m, d) =>
    if isValidYmd y m d then .ok ⟨y, m, d⟩ else .error (invalidDateMsg value)
  | none => .error (invalidDateMsg value)

/-- Cumulative day count before month `m` in a common year. -/
def daysBeforeMonth (m : Nat) : Nat :=
  if m = 1 then 0 else if m = 2 then 31 else if m = 3 then 59 else if m = 4 then 90
  else if m = 5 then 120 else if m = 6 then 151 else if m = 7 then 181
  else if m = 8 then 212 else if m = 9 then 243 else if m = 10 then 273
  else if m = 11 then 304 else if m = 12 then 334 else 0

/-- Day-of-year ordinal (chrono's `Mdf`-to-`Of` conversion). -/
def dayOrdinal (y : Int) (m d : Nat) : Nat :=
  daysBeforeMonth m + (if 3 ≤ m then (if isLeapYear y then 1 else 0) else 0) + d

/-- chrono `Datelike::num_days_from_ce`, verbatim (on nonnegative operands
Rust `/` and `>> 2` agree with `Int.tdiv`). -/
def numDaysFromCE (d : Ymd) : Int :=
  let year := d.year - 1
  let excess : Int := if year < 0 then 1 + (-year).tdiv 400 else 0
  let year2 := year + excess * 400
  let base : Int := -(excess * 146097)
  let div100 := year2.tdiv 100
  base + (year2 * 1461).tdiv 4 - div100 + div100.tdiv 4
    + (dayOrdinal d.year d.month d.day : Int)

/-- chrono `NaiveDateTime::timestamp` for date `d` at `secondsFromMidnight`
past midnight UTC (719163 is the Gregorian day number of 1970-01-01). -/
def dateTimestamp (d : Ymd) (secondsFromMidnight : Int) : Int :=
  (numDaysFromCE d - 719163) * 86400 + secondsFromMidnight

/-- `parse_start_date` (bars.rs lines 268-278). -/
def parse_start_date (value : Option String) : Except String (Option Int) :=
  match value with
  | none => .ok none
  | some s => (parse_yyyy_mm_dd s).map (fun d => some (dateTimestamp d 0))

/-- `parse_end_date` (bars.rs lines 281-291); 23:59:59 is 86399 seconds past
midnight. -/
def parse_end_date (value : Option String) : Except String (Option Int) :=
  match value with
  | none => .ok none
  | some s => (parse_yyyy_mm_dd s).map (fun d => some (dateTimestamp d 86399))

/-! ### The query pipeline (`load_bars` / `load_series`) -/

/-- Boolean form of the row ordering used by the sort: order by the
`timestamp` cell, nulls first (polars' default `nulls_last = false`). -/
def tsLeB (a b : Bar) : Bool :=
  match a.timestamp, b.timestamp with
  | none, _ => true
  | some _, none => false
  | some x, some y => decide (x ≤ y)

/-- The row ordering as a relation, for `List.insertionSort`. -/
def tsLe (a b : Bar) : Prop := tsLeB a b = true

instance : DecidableRel tsLe := fun a b => instDecidableEqBool (tsLeB a b) true

instance : IsTotal Bar tsLe := by
  constructor
  intro a b
  unfold tsLe tsLeB
  cases a.timestamp <;> cases b.timestamp <;> simp
  omega

instance : IsTrans Bar tsLe := by
  constructor
  intro a b c hab hbc
  unfold tsLe tsLeB at *
  cases ha : a.timestamp <;> cases hb : b.timestamp <;> cases hc : c.timestamp <;>
    rw [ha, hb] at hab <;> rw [hb, hc] at hbc <;> simp_all
  omega

/-- Predicate of the polars filter `col("contract").eq(lit(contract))`: a null
contract cell compares as null and is dropped. -/
def contractPred (c : String) (r : Bar) : Bool := r.contract == some c

/-- Predicate of `col("timestamp").cast(Int64).gt_eq(lit(bound))`: null rows
are dropped by the filter. -/
def startPredMs (bound : Int) (r : Bar) : Bool :=
  match r.timestamp with
  | some ts => decide (bound ≤ ts)
  | none => false

/-- Predicate of `col("timestamp").cast(Int64).lt_eq(lit(bound))`. -/
def endPredMs (bound : Int) (r : Bar) : Bool :=
  match r.timestamp with
  | some ts => decide (ts ≤ bound)
  | none => false

/-- The optional contract filter (bars.rs lines 50-52 / 97-99). -/
def applyContractFilter (contract : Option String) (rows : List Bar) : List Bar :=
  match contract with
  | some c => rows.filter (contractPred c)
  | none => rows

/-- The optional start filter: second bound scaled by 1000 to milliseconds
(bars.rs lines 54-60 / 101-107). -/
def applyStartFilter (bound : Option Int) (rows : List Bar) : List Bar :=
  match bound with
  | some t => rows.filter (startPredMs (t * 1000))
  | none => rows

/-- The optional end filter (bars.rs lines 62-68 / 109-115). -/
def applyEndFilter (bound : Option Int) (rows : List Bar) : List Bar :=
  match bound with
  | some t => rows.filter (endPredMs (t * 1000))
  | none => rows

/-- `.sort(["timestamp"], Default::default())`. -/
def sortByTimestamp (rows : List Bar) : List Bar := List.insertionSort tsLe rows

/-- `map_dataframe_to_candles` (bars.rs lines 149-205), the row loop: a null
timestamp or a null in any of open/high/low/close skips the row; the
(per-dataframe) column extraction errors are made impossible here because the
pipeline only reaches this map after a successful `select`/`collect`. -/
def map_dataframe_to_candles : List Bar → List Candle
  | [] => []
  | r :: rest =>
    match r.timestamp with
    | none => map_dataframe_to_candles rest
    | some timestamp_ms =>
      match r.open_, r.high, r.low, r.close with
      | some o, some h, some l, some c =>
        { time := timestamp_ms.tdiv 1000, open_ := o, high := h, low := l, close := c }
          :: map_dataframe_to_candles rest
      | _, _, _, _ => map_dataframe_to_candles rest

/-- Inner row loop of `map_dataframe_to_series` (bars.rs lines 229-245): skip
null timestamps, null cells and NaN values. -/
def build_points (indicator : String) : List Bar → List IndicatorPoint
  | [] => []
  | r :: rest =>
    match r.timestamp with
    | none => build_points indicator rest
    | some timestamp_ms =>
      match getInd r indicator with
      | none => build_points indicator rest
      | some value =>
        if value.isNan then build_points indicator rest
        else { time := timestamp_ms.tdiv 1000, value := value }
          :: build_points indicator rest

/-- Rust `str::starts_with` on char lists. -/
def strLeads : List Char → List Char → Bool
  | [], _ => true
  | _ :: _, [] => false
  | a :: ps, b :: ss => a == b && strLeads ps ss

/-- Pane classification (bars.rs lines 247-253). -/
def paneOf (indicator : String) : String :=
  if strLeads "rsi".data indicator.data then "rsi"
  else if strLeads "atr".data indicator.data then "atr"
  else "price"

/-- ASCII uppercasing of one character (Rust `to_uppercase` restricted to the
ASCII ids in the catalog). -/
def asciiUpper (c : Char) : Char :=
  if 97 ≤ c.toNat ∧ c.toNat ≤ 122 then Char.ofNat (c.toNat - 32) else c

/-- `indicator.replace('_', " ").to_uppercase()` (bars.rs line 257). -/
def displayName (indicator : String) : String :=
  ⟨(indicator.data.map (fun c => if c = '_' then ' ' else c)).map asciiUpper⟩

/-- Builds the `IndicatorSeries` for one catalog column (bars.rs 227-261). -/
def mkSeries (indicator : String) (rows : List Bar) : IndicatorSeries :=
  { id := indicator
    name := displayName indicator
    kind := "line"
    pane := paneOf indicator
    data := build_points indicator rows }

/-- Catalog loop of `map_dataframe_to_series` (bars.rs lines 219-262):
`df.column(indicator)` fails only when `indicator` is not among the frame's
columns, in which case the loop continues with the next catalog entry. -/
def seriesForCatalog (cols : List String) (rows : List Bar) :
    List String → List IndicatorSeries
  | [] => []
  | indicator :: rest =>
    if cols.contains indicator then
      mkSeries indicator rows :: seriesForCatalog cols rows rest
    else seriesForCatalog cols rows rest

/-- `map_dataframe_to_series` (bars.rs lines 207-265). -/
def map_dataframe_to_series (cols : List String) (rows : List Bar) :
    List IndicatorSeries :=
  seriesForCatalog cols rows INDICATOR_COLUMNS

/-- Result of a repository call together with whether the data source was
touched (the path-existence check of `base_query` and everything after it). -/
structure Queried (α : Type) where
  result : Except String α
  sourceAccessed : Bool

/-- Columns the bars plan references: polars fails the `collect` when the
plan's filter or select names a column missing from the schema. -/
def barsSchemaOk (f : Frame) (contract : Option String) : Bool :=
  ["timestamp", "open", "high", "low", "close"].all f.cols.contains
    && (contract.isNone || f.cols.contains "contract")

/-- Columns the series plan references: the select eagerly names every catalog
column (bars.rs lines 117-119). -/
def seriesSchemaOk (f : Frame) (contract : Option String) : Bool :=
  ("timestamp" :: INDICATOR_COLUMNS).all f.cols.contains
    && (contract.isNone || f.cols.contains "contract")

/-- `base_query` failure message (path detail abstracted away). -/
def sourceMissingMsg : String :=
  "Parquet file not found. Set BARS_PARQUET_PATH to override."

/-- `collect` failure message of the bars path (error detail abstracted). -/
def barsCollectErrMsg : String :=
  "Failed to load bars from parquet: column not found"

/-- `collect` failure message of the series path (error detail abstracted). -/
def seriesCollectErrMsg : String :=
  "Failed to load series from parquet: column not found"

/-- `BarsRepository::load_bars` (bars.rs lines 39-83).  `src = none` models a
missing/unopenable Parquet file. -/
def load_bars (src : Option Frame) (contract start end_ : Option String) :
    Queried (List Candle) :=
  match parse_start_date start with
  | .error e => ⟨.error e, false⟩
  | .ok start_time =>
    match parse_end_date end_ with
    | .error e => ⟨.error e, false⟩
    | .ok end_time =>
      match src with
      | none => ⟨.error sourceMissingMsg, true⟩
      | some frame =>
        if barsSchemaOk frame contract then
          ⟨.ok (map_dataframe_to_candles
            (sortByTimestamp
              (applyEndFilter end_time
                (applyStartFilter start_time
                  (applyContractFilter contract frame.rows))))), true⟩
        else ⟨.error barsCollectErrMsg, true⟩

/-- `BarsRepository::load_series` (bars.rs lines 86-128). -/
def load_series (src : Option Frame) (contract start end_ : Option String) :
    Queried (List IndicatorSeries) :=
  match parse_start_date start with
  | .error e => ⟨.error e, false⟩
  | .ok start_time =>
    match parse_end_date end_ with
    | .error e => ⟨.error e, false⟩
    | .ok end_time =>
      match src with
      | none => ⟨.error sourceMissingMsg, true⟩
      | some frame =>
        if seriesSchemaOk frame contract then
          ⟨.ok (map_dataframe_to_series frame.cols
            (sortByTimestamp
              (applyEndFilter end_time
                (applyStartFilter start_time
                  (applyContractFilter contract frame.rows))))), true⟩
        else ⟨.error seriesCollectErrMsg, true⟩

/-! ### Helper lemmas -/

/-- Truncating division by 1000 is monotone. -/
theorem tdiv1000_mono {a b : Int} (h : a ≤ b) : a.tdiv 1000 ≤ b.tdiv 1000 := by
  cases a with
  | ofNat m =>
    cases b with
    | ofNat n => simp only [Int.tdiv, Int.ofNat_eq_natCast] at *; omega
    | negSucc n => simp only [Int.tdiv, Int.ofNat_eq_natCast, Int.negSucc_eq] at *; omega
  | negSucc m =>
    cases b with
    | ofNat n => simp only [Int.tdiv, Int.ofNat_eq_natCast, Int.negSucc_eq] at *; omega
    | negSucc n => simp only [Int.tdiv, Int.ofNat_eq_natCast, Int.negSucc_eq] at *; omega

/-- A lower bound in milliseconds gives a lower bound on the truncated
second. -/
theorem le_tdiv1000 {q a : Int} (h : q * 1000 ≤ a) : q ≤ a.tdiv 1000 := by
  cases q with
  | ofNat m =>
    cases a with
    | ofNat n => simp only [Int.tdiv, Int.ofNat_eq_natCast] at *; omega
    | negSucc n => simp only [Int.tdiv, Int.ofNat_eq_natCast, Int.negSucc_eq] at *; omega
  | negSucc m =>
    cases a with
    | ofNat n => simp only [Int.tdiv, Int.ofNat_eq_natCast, Int.negSucc_eq] at *; omega
    | negSucc n => simp only [Int.tdiv, Int.ofNat_eq_natCast, Int.negSucc_eq] at *; omega

/-- An upper bound in milliseconds gives an upper bound on the truncated
second. -/
theorem tdiv1000_le {q a : Int} (h : a ≤ q * 1000) : a.tdiv 1000 ≤ q := by
  cases q with
  | ofNat m =>
    cases a with
    | ofNat n => simp only [Int.tdiv, Int.ofNat_eq_natCast] at *; omega
    | negSucc n => simp only [Int.tdiv, Int.ofNat_eq_natCast, Int.negSucc_eq] at *; omega
  | negSucc m =>
    cases a with
    | ofNat n => simp only [Int.tdiv, Int.ofNat_eq_natCast, Int.negSucc_eq] at *; omega
    | negSucc n => simp only [Int.tdiv, Int.ofNat_eq_natCast, Int.negSucc_eq] at *; omega

/-- Stated from the spec's words (4.2): the per-row candle mapping.  `time` is
the millisecond timestamp integer-divided (truncation toward zero) by 1000,
the four price fields are copied verbatim, and a row with a null timestamp or
a null in any price field maps to nothing. -/
def candleOfRow (r : Bar) : Option Candle :=
  match r.timestamp, r.open_, r.high, r.low, r.close with
  | some ts, some o, some h, some l, some c =>
    some { time := ts.tdiv 1000, open_ := o, high := h, low := l, close := c }
  | _, _, _, _, _ => none

/-- The candle loop is exactly a `filterMap` of the per-row mapping. -/
theorem candles_eq_filterMap (rows : List Bar) :
    map_dataframe_to_candles rows = rows.filterMap candleOfRow := by
  induction rows with
  | nil => rfl
  | cons r rest ih =>
    cases ht : r.timestamp <;>
      cases ho : r.open_ <;> cases hh : r.high <;> cases hl : r.low <;> cases hc : r.close <;>
        simp [map_dataframe_to_candles, candleOfRow, List.filterMap_cons, ht, ho, hh, hl, hc, ih]

/-- The per-row indicator-point mapping: null timestamp, null cell or NaN
value maps to nothing. -/
def pointOfRow (indicator : String) (r : Bar) : Option IndicatorPoint :=
  match r.timestamp, getInd r indicator with
  | some ts, some v =>
    if v.isNan then none else some { time := ts.tdiv 1000, value := v }
  | _, _ => none

/-- The point loop is exactly a `filterMap` of the per-row mapping. -/
theorem points_eq_filterMap (indicator : String) (rows : List Bar) :
    build_points indicator rows = rows.filterMap (pointOfRow indicator) := by
  induction rows with
  | nil => rfl
  | cons r rest ih =>
    cases ht : r.timestamp with
    | none => simp [build_points, pointOfRow, List.filterMap_cons, ht, ih]
    | some ts =>
      cases hv : getInd r indicator with
      | none => simp [build_points, pointOfRow, List.filterMap_cons, ht, hv, ih]
      | some v =>
        by_cases hnan : v.isNan = true <;>
          simp [build_points, pointOfRow, List.filterMap_cons, ht, hv, ih, hnan]

/-- Destructures a produced candle back into its source row's cells. -/
theorem candleOfRow_fields {r : Bar} {cd : Candle} (h : candleOfRow r = some cd) :
    ∃ ts : Int, r.timestamp = some ts ∧ cd.time = ts.tdiv 1000 ∧
      r.open_ = some cd.open_ ∧ r.high = some cd.high ∧
      r.low = some cd.low ∧ r.close = some cd.close := by
  unfold candleOfRow at h
  cases ht : r.timestamp <;> cases ho : r.open_ <;> cases hh : r.high <;>
    cases hl : r.low <;> cases hc : r.close <;>
      rw [ht, ho, hh, hl, hc] at h <;> simp at h
  obtain ⟨rfl⟩ := h
  rename_i ts o hi lo cl
  exact ⟨ts, rfl, rfl, rfl, rfl, rfl, rfl⟩

/-- Destructures a produced indicator point back into its source cells. -/
theorem pointOfRow_fields {indicator : String} {r : Bar} {p : IndicatorPoint}
    (h : pointOfRow indicator r = some p) :
    ∃ ts : Int, r.timestamp = some ts ∧ p.time = ts.tdiv 1000 ∧
      getInd r indicator = some p.value ∧ p.value.isNan = false := by
  unfold pointOfRow at h
  cases ht : r.timestamp <;> cases hv : getInd r indicator <;> rw [ht, hv] at h <;> simp at h
  rename_i ts v
  obtain ⟨hnan, rfl⟩ := h
  exact ⟨ts, rfl, rfl, rfl, hnan⟩

/-- The row list both loaders hand to their mapping step: contract, start and
end filters applied in order, then the timestamp sort. -/
def pipelineRows (frame : Frame) (contract : Option String) (st et : Option Int) : List Bar :=
  sortByTimestamp
    (applyEndFilter et (applyStartFilter st (applyContractFilter contract frame.rows)))

/-- Normal form of a successful `load_bars` run. -/
theorem load_bars_ok {frame : Frame} {contract start end_ : Option String}
    {st et : Option Int}
    (hs : parse_start_date start = .ok st) (he : parse_end_date end_ = .ok et)
    (hschema : barsSchemaOk frame contract = true) :
    load_bars (some frame) contract start end_ =
      ⟨.ok (map_dataframe_to_candles (pipelineRows frame contract st et)), true⟩ := by
  unfold load_bars
  rw [hs, he]
  simp [hschema, pipelineRows]

/-- A successful `load_bars` run determines parses, schema and output. -/
theorem load_bars_ok_inv {frame : Frame} {contract start end_ : Option String}
    {cds : List Candle}
    (h : (load_bars (some frame) contract start end_).result = .ok cds) :
    ∃ st et, parse_start_date start = .ok st ∧ parse_end_date end_ = .ok et ∧
      barsSchemaOk frame contract = true ∧
      cds = map_dataframe_to_candles (pipelineRows frame contract st et) := by
  unfold load_bars at h
  cases hs : parse_start_date start with
  | error e => rw [hs] at h; simp at h
  | ok st =>
    rw [hs] at h
    cases he : parse_end_date end_ with
    | error e => rw [he] at h; simp at h
    | ok et =>
      rw [he] at h
      by_cases hschema : barsSchemaOk frame contract = true
      · simp [hschema, pipelineRows] at h
        exact ⟨st, et, rfl, rfl, hschema, h.symm⟩
      · simp [hschema] at h

/-- Normal form of a successful `load_series` run. -/
theorem load_series_ok {frame : Frame} {contract start end_ : Option String}
    {st et : Option Int}
    (hs : parse_start_date start = .ok st) (he : parse_end_date end_ = .ok et)
    (hschema : seriesSchemaOk frame contract = true) :
    load_series (some frame) contract start end_ =
      ⟨.ok (map_dataframe_to_series frame.cols (pipelineRows frame contract st et)),
        true⟩ := by
  unfold load_series
  rw [hs, he]
  simp [hschema, pipelineRows]

/-- A successful `load_series` run determines parses, schema and output. -/
theorem load_series_ok_inv {frame : Frame} {contract start end_ : Option String}
    {out : List IndicatorSeries}
    (h : (load_series (some frame) contract start end_).result = .ok out) :
    ∃ st et, parse_start_date start = .ok st ∧ parse_end_date end_ = .ok et ∧
      seriesSchemaOk frame contract = true ∧
      out = map_dataframe_to_series frame.cols (pipelineRows frame contract st et) := by
  unfold load_series at h
  cases hs : parse_start_date start with
  | error e => rw [hs] at h; simp at h
  | ok st =>
    rw [hs] at h
    cases he : parse_end_date end_ with
    | error e => rw [he] at h; simp at h
    | ok et =>
      rw [he] at h
      by_cases hschema : seriesSchemaOk frame contract = true
      · simp [hschema, pipelineRows] at h
        exact ⟨st, et, rfl, rfl, hschema, h.symm⟩
      · simp [hschema] at h

/-- Membership through the optional contract filter. -/
theorem mem_of_mem_contractFilter {contract : Option String} {rows : List Bar} {r : Bar}
    (h : r ∈ applyContractFilter contract rows) : r ∈ rows := by
  cases contract with
  | none => exact h
  | some c => exact List.mem_of_mem_filter h

/-- Membership through the optional start filter. -/
theorem mem_of_mem_startFilter {b : Option Int} {rows : List Bar} {r : Bar}
    (h : r ∈ applyStartFilter b rows) : r ∈ rows := by
  cases b with
  | none => exact h
  | some t => exact List.mem_of_mem_filter h

/-- Membership through the optional end filter. -/
theorem mem_of_mem_endFilter {b : Option Int} {rows : List Bar} {r : Bar}
    (h : r ∈ applyEndFilter b rows) : r ∈ rows := by
  cases b with
  | none => exact h
  | some t => exact List.mem_of_mem_filter h

/-- Rows surviving the pipeline come from the frame. -/
theorem mem_of_mem_pipelineRows {frame : Frame} {contract : Option String}
    {st et : Option Int} {r : Bar} (h : r ∈ pipelineRows frame contract st et) :
    r ∈ frame.rows := by
  unfold pipelineRows sortByTimestamp at h
  rw [List.mem_insertionSort] at h
  exact mem_of_mem_contractFilter (mem_of_mem_startFilter (mem_of_mem_endFilter h))

/-- With both bounds given, every surviving row's timestamp is non-null and
lies in the millisecond window. -/
theorem pipelineRows_bounds {frame : Frame} {contract : Option String} {r : Bar}
    {st et : Int} (h : r ∈ pipelineRows frame contract (some st) (some et)) :
    ∃ ts : Int, r.timestamp = some ts ∧ st * 1000 ≤ ts ∧ ts ≤ et * 1000 := by
  unfold pipelineRows sortByTimestamp at h
  rw [List.mem_insertionSort] at h
  have hend : endPredMs (et * 1000) r = true := List.of_mem_filter h
  have h2 : r ∈ applyStartFilter (some st)
      (applyContractFilter contract frame.rows) := List.mem_of_mem_filter h
  have hstart : startPredMs (st * 1000) r = true := List.of_mem_filter h2
  unfold endPredMs at hend
  unfold startPredMs at hstart
  cases ht : r.timestamp with
  | none => rw [ht] at hend; simp at hend
  | some ts =>
    rw [ht] at hend hstart
    simp at hend hstart
    exact ⟨ts, rfl, hstart, hend⟩

/-- The pipeline's output rows are sorted by the null-first timestamp order. -/
theorem pipelineRows_sorted (frame : Frame) (contract : Option String)
    (st et : Option Int) : List.Pairwise tsLe (pipelineRows frame contract st et) :=
  List.sorted_insertionSort tsLe _

/-- Candle times inherit the row order. -/
theorem candle_times_pairwise {rows : List Bar} (h : List.Pairwise tsLe rows) :
    List.Pairwise (fun a b : Candle => a.time ≤ b.time)
      (map_dataframe_to_candles rows) := by
  rw [candles_eq_filterMap, List.pairwise_filterMap]
  refine h.imp ?_
  intro a b hab cd hcd cd' hcd'
  rw [Option.mem_def] at hcd hcd'
  obtain ⟨ts, hts, htime, -, -, -, -⟩ := candleOfRow_fields hcd
  obtain ⟨ts2, hts2, htime2, -, -, -, -⟩ := candleOfRow_fields hcd'
  unfold tsLe tsLeB at hab
  rw [hts, hts2] at hab
  simp at hab
  rw [htime, htime2]
  exact tdiv1000_mono hab

/-- A pointwise-stronger partial map yields a sublist. -/
theorem filterMap_sublist_of_imp {α β : Type} (f g : α → Option β) (l : List α)
    (hfg : ∀ a b, f a = some b → g a = some b) :
    (l.filterMap f).Sublist (l.filterMap g) := by
  induction l with
  | nil => simp
  | cons a l ih =>
    rw [List.filterMap_cons, List.filterMap_cons]
    cases hf : f a with
    | none =>
      cases hg : g a with
      | none => exact ih
      | some b => exact List.Sublist.cons b ih
    | some b =>
      rw [hfg a b hf]
      exact List.Sublist.cons₂ b ih

/-- The emitted candle times are a sublist of all non-null row timestamps
truncated to seconds. -/
theorem candle_times_sublist (rows : List Bar) :
    ((map_dataframe_to_candles rows).map Candle.time).Sublist
      ((rows.filterMap Bar.timestamp).map (fun ts => ts.tdiv 1000)) := by
  rw [candles_eq_filterMap, List.map_filterMap, List.map_filterMap]
  refine filterMap_sublist_of_imp _ _ _ ?_
  intro r t hr
  cases hc : candleOfRow r with
  | none => rw [hc] at hr; simp at hr
  | some cd =>
    rw [hc] at hr
    simp at hr
    obtain ⟨ts, hts, htime, -, -, -, -⟩ := candleOfRow_fields hc
    rw [hts]
    simp [← hr, htime]

/-- Every emitted series is the catalog build of its own id. -/
theorem seriesForCatalog_mem {cols : List String} {rows : List Bar}
    {cats : List String} {sr : IndicatorSeries}
    (h : sr ∈ seriesForCatalog cols rows cats) :
    sr.id ∈ cats ∧ sr = mkSeries sr.id rows := by
  induction cats with
  | nil => simp [seriesForCatalog] at h
  | cons ind rest ih =>
    unfold seriesForCatalog at h
    by_cases hc : cols.contains ind
    · rw [if_pos hc] at h
      rcases List.mem_cons.mp h with heq | htail
      · constructor
        · rw [heq]
          simp [mkSeries]
        · rw [heq]
          simp [mkSeries]
      · obtain ⟨h1, h2⟩ := ih htail
        exact ⟨List.mem_cons_of_mem _ h1, h2⟩
    · rw [if_neg hc] at h
      obtain ⟨h1, h2⟩ := ih h
      exact ⟨List.mem_cons_of_mem _ h1, h2⟩

/-- The emitted series ids are the catalog filtered by schema membership, in
catalog order. -/
theorem seriesForCatalog_map_id (cols : List String) (rows : List Bar)
    (cats : List String) :
    (seriesForCatalog cols rows cats).map (fun s => s.id) =
      cats.filter cols.contains := by
  induction cats with
  | nil => rfl
  | cons ind rest ih =>
    unfold seriesForCatalog
    by_cases hc : ind ∈ cols
    · simp [hc, ih, mkSeries, List.filter_cons]
    · simp [hc, ih, List.filter_cons]

/-! ### Spec-side definitions and character facts -/

/-- Stated from the spec's words (4.1): the literal `YYYY-MM-DD` pattern —
exactly a 4-digit year, 2-digit month and 2-digit day, hyphen-separated, with
no other characters. -/
def strictYYYYMMDD (s : String) : Bool :=
  match s.data with
  | [y1, y2, y3, y4, h1, m1, m2, h2, d1, d2] =>
    isAsciiDigit y1 && isAsciiDigit y2 && isAsciiDigit y3 && isAsciiDigit y4 &&
      h1 == '-' && isAsciiDigit m1 && isAsciiDigit m2 && h2 == '-' &&
      isAsciiDigit d1 && isAsciiDigit d2
  | _ => false

/-- A digit is not whitespace. -/
theorem digit_not_ws {c : Char} (h : isAsciiDigit c = true) : isWsChar c = false := by
  unfold isAsciiDigit at h
  unfold isWsChar
  simp at h ⊢
  omega

/-- A digit is not the minus sign. -/
theorem digit_ne_dash {c : Char} (h : isAsciiDigit c = true) : ¬(c = '-') := by
  intro hc
  subst hc
  exact absurd h (by decide)

/-- A digit is not the plus sign. -/
theorem digit_ne_plus {c : Char} (h : isAsciiDigit c = true) : ¬(c = '+') := by
  intro hc
  subst hc
  exact absurd h (by decide)

/-! ### Demonstration data -/

/-- The full schema of a well-formed source. -/
def demoCols : List String :=
  ["timestamp", "contract", "open", "high", "low", "close"] ++ INDICATOR_COLUMNS

/-- A fully-populated row at millisecond timestamp `ts` with price payload
`v` everywhere. -/
def demoBar (ts : Int) (v : Rat) : Bar :=
  { timestamp := some ts, contract := some "MNQ", open_ := some (F64.num v),
    high := some (F64.num v), low := some (F64.num v), close := some (F64.num v),
    indicators := INDICATOR_COLUMNS.map (fun i => (i, some (F64.num v))) }

/-- Two rows inside 2024-10-24 UTC, two minutes apart. -/
def demoFrame : Frame :=
  { cols := demoCols, rows := [demoBar 1729728000000 1, demoBar 1729728120000 2] }

/-- Two rows whose millisecond timestamps truncate to the same second. -/
def demoFrameDup : Frame :=
  { cols := demoCols, rows := [demoBar 1000 1, demoBar 1500 2] }

/-- One row whose `open` cell is NaN while everything else is populated. -/
def demoFrameNaN : Frame :=
  { cols := demoCols,
    rows := [{ timestamp := some 1000, contract := some "MNQ",
               open_ := some F64.nan, high := some (F64.num 2),
               low := some (F64.num 3), close := some (F64.num 4),
               indicators := [] }] }

/-- A source whose schema lacks the catalog column `vwapn`. -/
def demoFrameNoVwapn : Frame :=
  { cols := ["timestamp", "contract", "open", "high", "low", "close",
             "vwap", "vwapd", "ema_9", "ema_14", "ema_21",
             "rsi_14_ema", "rsi_14_wilder", "atr_14"],
    rows := [demoBar 1729728000000 1] }





/-! ### Claim theorems -/

/-- Claim C1: the spec says a catalog indicator column absent from the source
is skipped silently and `load_series` still succeeds.  The code disagrees: the
series query eagerly selects every catalog column, so collecting the plan
fails when one is missing and `load_series` returns an error; the in-loop
skip branch is unreachable.  This theorem evaluates the embedded code at the
failing input: a source lacking `vwapn`. -/
theorem C1_missing_catalog_column_fails :
    (load_series (some demoFrameNoVwapn) none none none).result =
      .error seriesCollectErrMsg ∧
    demoFrameNoVwapn.cols.contains "vwapn" = false ∧
    (load_bars (some demoFrameNoVwapn) none none none).result =
      .ok [{ time := 1729728000, open_ := F64.num 1, high := F64.num 1,
             low := F64.num 1, close := F64.num 1 }] := by
  refine ⟨rfl, by decide, rfl⟩

/-- Claim C2, counterexample: the claim says rows with a NaN value for the
relevant column are elided from candles as well; in fact the candle loop only
elides nulls, and a NaN `open` survives into the response verbatim. -/
theorem C2_counterexample :
    (load_bars (some demoFrameNaN) none none none).result =
      .ok [{ time := 1, open_ := F64.nan, high := F64.num 2,
             low := F64.num 3, close := F64.num 4 }] ∧
    F64.nan.isNan = true :=
  ⟨rfl, rfl⟩

/-- Claim C2, amended: indicator points are never produced from a null or NaN
cell, and candles are never produced from rows with a null timestamp or null
price cell — but candle price values themselves are copied verbatim, NaN
included. -/
theorem C2_amended {frame : Frame} {contract start end_ : Option String}
    {out : List IndicatorSeries} {cds : List Candle}
    (hser : (load_series (some frame) contract start end_).result = .ok out)
    (hbars : (load_bars (some frame) contract start end_).result = .ok cds) :
    (∀ sr ∈ out, ∀ p ∈ sr.data, p.value.isNan = false ∧
      ∃ r ∈ frame.rows, getInd r sr.id = some p.value) ∧
    (∀ cd ∈ cds, ∃ r ∈ frame.rows, r.timestamp ≠ none ∧
      r.open_ = some cd.open_ ∧ r.high = some cd.high ∧
      r.low = some cd.low ∧ r.close = some cd.close) := by
  obtain ⟨st, et, hs, he, hschema, hout⟩ := load_series_ok_inv hser
  obtain ⟨st2, et2, hs2, he2, hschema2, hcds⟩ := load_bars_ok_inv hbars
  constructor
  · intro sr hsr p hp
    rw [hout] at hsr
    obtain ⟨hid, hsreq⟩ := seriesForCatalog_mem hsr
    rw [hsreq] at hp
    have hp2 : p ∈ build_points sr.id (pipelineRows frame contract st et) := hp
    rw [points_eq_filterMap] at hp2
    obtain ⟨r, hr, hpr⟩ := List.mem_filterMap.mp hp2
    obtain ⟨ts, hts, htime, hval, hnan⟩ := pointOfRow_fields hpr
    exact ⟨hnan, r, mem_of_mem_pipelineRows hr, hval⟩
  · intro cd hcd
    rw [hcds, candles_eq_filterMap] at hcd
    obtain ⟨r, hr, hcr⟩ := List.mem_filterMap.mp hcd
    obtain ⟨ts, hts, htime, ho, hh, hl, hc⟩ := candleOfRow_fields hcr
    refine ⟨r, mem_of_mem_pipelineRows hr, ?_, ho, hh, hl, hc⟩
    rw [hts]
    exact Option.some_ne_none ts

/-- Witness for the amended C2 at a concrete frame. -/
theorem C2_amended_witness :
    (∀ sr ∈ map_dataframe_to_series demoFrame.cols
        (pipelineRows demoFrame none none none),
      ∀ p ∈ sr.data, p.value.isNan = false ∧
        ∃ r ∈ demoFrame.rows, getInd r sr.id = some p.value) ∧
    (∀ cd ∈ map_dataframe_to_candles (pipelineRows demoFrame none none none),
      ∃ r ∈ demoFrame.rows, r.timestamp ≠ none ∧
        r.open_ = some cd.open_ ∧ r.high = some cd.high ∧
        r.low = some cd.low ∧ r.close = some cd.close) :=
  @C2_amended demoFrame none none none
    (map_dataframe_to_series demoFrame.cols (pipelineRows demoFrame none none none))
    (map_dataframe_to_candles (pipelineRows demoFrame none none none)) rfl rfl

/-- Claim C3, counterexample: the claim says a start/end string is accepted
only if it matches the literal `YYYY-MM-DD` pattern; chrono's parser also
accepts one-digit month and day fields, so `2024-2-3` parses successfully
although it does not match the pattern. -/
theorem C3_counterexample :
    parse_yyyy_mm_dd "2024-2-3" = .ok ⟨2024, 2, 3⟩ ∧
    strictYYYYMMDD "2024-2-3" = false :=
  ⟨rfl, rfl⟩

/-- Claim C5: when a date string fails to parse, both loaders return exactly
the date error and the data source is never touched — the path check, scan
and collect all sit after date parsing, so the error is identical for every
source state, including a missing source. -/
theorem C5_short_circuit {src : Option Frame} {contract s e : Option String}
    {msg : String}
    (h : parse_start_date s = .error msg ∨
      ((parse_start_date s).isOk = true ∧ parse_end_date e = .error msg)) :
    load_bars src contract s e = ⟨.error msg, false⟩ ∧
    load_series src contract s e = ⟨.error msg, false⟩ := by
  rcases h with h | ⟨hok, herr⟩
  · constructor
    · unfold load_bars
      rw [h]
    · unfold load_series
      rw [h]
  · cases hps : parse_start_date s with
    | error e2 => rw [hps] at hok; simp [Except.isOk, Except.toBool] at hok
    | ok st =>
      constructor
      · unfold load_bars
        rw [hps, herr]
      · unfold load_series
        rw [hps, herr]

/-- Witness for C5: a malformed start date short-circuits even when the
source is missing entirely. -/
theorem C5_short_circuit_witness :
    load_bars none none (some "10/24/2024") none =
      ⟨.error (invalidDateMsg "10/24/2024"), false⟩ ∧
    load_series none none (some "10/24/2024") none =
      ⟨.error (invalidDateMsg "10/24/2024"), false⟩ :=
  C5_short_circuit (Or.inl rfl)

/-- Claim C7, counterexample: the claim says no two candles in a response
share a time; the code does not deduplicate, and two rows with millisecond
timestamps 1000 and 1500 both truncate to second 1. -/
theorem C7_counterexample :
    (load_bars (some demoFrameDup) none none none).result =
      .ok [{ time := 1, open_ := F64.num 1, high := F64.num 1,
             low := F64.num 1, close := F64.num 1 },
           { time := 1, open_ := F64.num 2, high := F64.num 2,
             low := F64.num 2, close := F64.num 2 }] ∧
    (List.map Candle.time
      [{ time := 1, open_ := F64.num 1, high := F64.num 1,
         low := F64.num 1, close := F64.num 1 },
       { time := 1, open_ := F64.num 2, high := F64.num 2,
         low := F64.num 2, close := F64.num 2 }]).Nodup = False := by
  refine ⟨rfl, ?_⟩
  simp

/-- Claim C9: each surviving row maps to a candle with `time` the millisecond
timestamp divided by 1000 truncating toward zero and prices copied verbatim,
and a row missing any price cell (or the timestamp) contributes nothing; the
two extra conjuncts pin the truncation direction on negative input. -/
theorem C9_row_mapping (rows : List Bar) :
    map_dataframe_to_candles rows = rows.filterMap candleOfRow ∧
    Int.tdiv (-999) 1000 = 0 ∧ Int.tdiv 1999 1000 = 1 :=
  ⟨candles_eq_filterMap rows, by decide, by decide⟩

/-- The contract filter never adds rows. -/
theorem contractFilter_sublist (contract : Option String) (rows : List Bar) :
    (applyContractFilter contract rows).Sublist rows := by
  cases contract with
  | none => exact List.Sublist.refl rows
  | some c => exact List.filter_sublist rows

/-- The start filter never adds rows. -/
theorem startFilter_sublist (b : Option Int) (rows : List Bar) :
    (applyStartFilter b rows).Sublist rows := by
  cases b with
  | none => exact List.Sublist.refl rows
  | some t => exact List.filter_sublist rows

/-- The end filter never adds rows. -/
theorem endFilter_sublist (b : Option Int) (rows : List Bar) :
    (applyEndFilter b rows).Sublist rows := by
  cases b with
  | none => exact List.Sublist.refl rows
  | some t => exact List.filter_sublist rows

/-- Claim C4: for every successfully parsed date string, the start bound is
that date's 00:00:00 UTC epoch second, the end bound is 23:59:59 of the same
calendar date (start + 86399, not the next midnight), and absent strings give
no bound. -/
theorem C4_date_bounds {s : String} {d : Ymd} (h : parse_yyyy_mm_dd s = .ok d) :
    parse_start_date (some s) = .ok (some (dateTimestamp d 0)) ∧
    parse_end_date (some s) = .ok (some (dateTimestamp d 86399)) ∧
    dateTimestamp d 86399 = dateTimestamp d 0 + 86399 ∧
    dateTimestamp d 0 % 86400 = 0 ∧
    parse_start_date none = .ok none ∧
    parse_end_date none = .ok none := by
  refine ⟨?_, ?_, ?_, ?_, rfl, rfl⟩
  · simp [parse_start_date, h, Except.map]
  · simp [parse_end_date, h, Except.map]
  · unfold dateTimestamp
    ring
  · unfold dateTimestamp
    simp [Int.mul_emod_left]

/-- Witness for C4 at 2024-10-24, with the bounds evaluated to their concrete
epoch seconds. -/
theorem C4_date_bounds_witness :
    (parse_start_date (some "2024-10-24") =
        .ok (some (dateTimestamp ⟨2024, 10, 24⟩ 0)) ∧
      parse_end_date (some "2024-10-24") =
        .ok (some (dateTimestamp ⟨2024, 10, 24⟩ 86399)) ∧
      dateTimestamp ⟨2024, 10, 24⟩ 86399 = dateTimestamp ⟨2024, 10, 24⟩ 0 + 86399 ∧
      dateTimestamp ⟨2024, 10, 24⟩ 0 % 86400 = 0 ∧
      parse_start_date none = .ok none ∧
      parse_end_date none = .ok none) ∧
    dateTimestamp ⟨2024, 10, 24⟩ 0 = 1729728000 ∧
    dateTimestamp ⟨2024, 10, 24⟩ 86399 = 1729814399 :=
  ⟨C4_date_bounds rfl, rfl, rfl⟩

/-- Claim C6: a successful bars response is non-decreasing in time, and when
both bounds are given every candle's time lies in `[start, end]` seconds, each
candle stemming from a row whose millisecond timestamp passed the
`start*1000 ≤ ts ≤ end*1000` filters. -/
theorem C6_sorted_and_bounded {frame : Frame} {contract s e : Option String}
    {cds : List Candle}
    (h : (load_bars (some frame) contract s e).result = .ok cds) :
    List.Pairwise (fun a b : Candle => a.time ≤ b.time) cds ∧
    ∀ st et : Int, parse_start_date s = .ok (some st) →
      parse_end_date e = .ok (some et) →
      ∀ cd ∈ cds, st ≤ cd.time ∧ cd.time ≤ et ∧
        ∃ r ∈ frame.rows, ∃ ts : Int, r.timestamp = some ts ∧
          st * 1000 ≤ ts ∧ ts ≤ et * 1000 ∧ cd.time = ts.tdiv 1000 := by
  obtain ⟨st2, et2, hs2, he2, hschema, hcds⟩ := load_bars_ok_inv h
  subst hcds
  constructor
  · exact candle_times_pairwise (pipelineRows_sorted frame contract st2 et2)
  · intro st et hs he
    have hst : st2 = some st := Except.ok.inj (hs2.symm.trans hs)
    have het : et2 = some et := Except.ok.inj (he2.symm.trans he)
    subst hst
    subst het
    intro cd hcd
    rw [candles_eq_filterMap] at hcd
    obtain ⟨r, hr, hcr⟩ := List.mem_filterMap.mp hcd
    obtain ⟨ts, hts, htime, -, -, -, -⟩ := candleOfRow_fields hcr
    obtain ⟨ts2, hts2, hlo, hhi⟩ := pipelineRows_bounds hr
    rw [hts] at hts2
    obtain rfl : ts = ts2 := Option.some.inj hts2
    refine ⟨?_, ?_, r, mem_of_mem_pipelineRows hr, ts, hts, hlo, hhi, htime⟩
    · rw [htime]
      exact le_tdiv1000 hlo
    · rw [htime]
      exact tdiv1000_le hhi

/-- The bars output of `demoFrame` for the 2024-10-24 day window. -/
def demoDayCandles : List Candle :=
  [{ time := 1729728000, open_ := F64.num 1, high := F64.num 1,
     low := F64.num 1, close := F64.num 1 },
   { time := 1729728120, open_ := F64.num 2, high := F64.num 2,
     low := F64.num 2, close := F64.num 2 }]

/-- Witness for C6 on the demo frame with both bounds on 2024-10-24. -/
theorem C6_sorted_and_bounded_witness :
    List.Pairwise (fun a b : Candle => a.time ≤ b.time) demoDayCandles ∧
    ∀ st et : Int, parse_start_date (some "2024-10-24") = .ok (some st) →
      parse_end_date (some "2024-10-24") = .ok (some et) →
      ∀ cd ∈ demoDayCandles, st ≤ cd.time ∧ cd.time ≤ et ∧
        ∃ r ∈ demoFrame.rows, ∃ ts : Int, r.timestamp = some ts ∧
          st * 1000 ≤ ts ∧ ts ≤ et * 1000 ∧ cd.time = ts.tdiv 1000 :=
  @C6_sorted_and_bounded demoFrame none (some "2024-10-24") (some "2024-10-24")
    demoDayCandles rfl

/-- Claim C7, amended: candle times never repeat provided no two non-null
source timestamps truncate to the same second; without that proviso the code
does not deduplicate (see the counterexample). -/
theorem C7_amended {frame : Frame} {contract s e : Option String} {cds : List Candle}
    (h : (load_bars (some frame) contract s e).result = .ok cds)
    (hnd : ((frame.rows.filterMap Bar.timestamp).map
      (fun ts => ts.tdiv 1000)).Nodup) :
    (cds.map Candle.time).Nodup := by
  obtain ⟨st, et, hs, he, hschema, hcds⟩ := load_bars_ok_inv h
  subst hcds
  have h1 := candle_times_sublist (pipelineRows frame contract st et)
  have hperm : (pipelineRows frame contract st et).Perm
      (applyEndFilter et (applyStartFilter st
        (applyContractFilter contract frame.rows))) :=
    List.perm_insertionSort tsLe _
  have hsub : (applyEndFilter et (applyStartFilter st
      (applyContractFilter contract frame.rows))).Sublist frame.rows :=
    ((endFilter_sublist et _).trans (startFilter_sublist st _)).trans
      (contractFilter_sublist contract _)
  have h2 := (hperm.filterMap Bar.timestamp).map (fun ts => ts.tdiv 1000)
  have h3 := ((hsub.filterMap Bar.timestamp).map (fun ts => ts.tdiv 1000))
  have hndSorted := (h2.nodup_iff).mpr (List.Nodup.sublist h3 hnd)
  exact List.Nodup.sublist h1 hndSorted

/-- Witness for the amended C7: the demo frame's timestamps land in distinct
seconds and the response times are distinct. -/
theorem C7_amended_witness : (demoDayCandles.map Candle.time).Nodup :=
  @C7_amended demoFrame none none none demoDayCandles rfl (by decide)

/-- Claim C8: every emitted series carries id = raw catalog column name, name
= id with underscores spaced and upper-cased, kind = "line", pane by the
rsi/atr id-prefix rule, and ids appear in fixed catalog order. -/
theorem C8_series_shape {frame : Frame} {contract s e : Option String}
    {out : List IndicatorSeries}
    (h : (load_series (some frame) contract s e).result = .ok out) :
    out.map (fun sr => sr.id) = INDICATOR_COLUMNS.filter frame.cols.contains ∧
    ∀ sr ∈ out, sr.id ∈ INDICATOR_COLUMNS ∧ sr.name = displayName sr.id ∧
      sr.kind = "line" ∧ sr.pane = paneOf sr.id := by
  obtain ⟨st, et, hs, he, hschema, hout⟩ := load_series_ok_inv h
  subst hout
  constructor
  · exact seriesForCatalog_map_id frame.cols _ INDICATOR_COLUMNS
  · intro sr hsr
    obtain ⟨hid, heq⟩ := seriesForCatalog_mem hsr
    refine ⟨hid, ?_, ?_, ?_⟩ <;> (rw [heq]; rfl)

/-- Witness for C8 on the demo frame, with concrete name and pane checks. -/
theorem C8_series_shape_witness :
    ((map_dataframe_to_series demoFrame.cols
          (pipelineRows demoFrame none none none)).map (fun sr => sr.id) =
        INDICATOR_COLUMNS.filter demoFrame.cols.contains ∧
      ∀ sr ∈ map_dataframe_to_series demoFrame.cols
          (pipelineRows demoFrame none none none),
        sr.id ∈ INDICATOR_COLUMNS ∧ sr.name = displayName sr.id ∧
          sr.kind = "line" ∧ sr.pane = paneOf sr.id) ∧
    displayName "rsi_14_ema" = "RSI 14 EMA" ∧
    paneOf "rsi_14_ema" = "rsi" ∧ paneOf "atr_14" = "atr" ∧
    paneOf "vwap" = "price" :=
  ⟨@C8_series_shape demoFrame none none none _ rfl, rfl, rfl, rfl, rfl⟩

/-- Claim C10: with a readable fully-populated source, a contract matching no
row succeeds: empty candle list, and every series present with an empty data
list — there is no contract-existence check. -/
theorem C10_unknown_contract {frame : Frame} {c : String}
    (hbars : barsSchemaOk frame (some c) = true)
    (hser : seriesSchemaOk frame (some c) = true)
    (hnone : ∀ r ∈ frame.rows, r.contract ≠ some c) :
    (load_bars (some frame) (some c) none none).result = .ok [] ∧
    (load_series (some frame) (some c) none none).result =
      .ok (map_dataframe_to_series frame.cols []) ∧
    ∀ sr ∈ map_dataframe_to_series frame.cols [], sr.data = [] := by
  have hfilter : applyContractFilter (some c) frame.rows = [] := by
    unfold applyContractFilter
    rw [List.filter_eq_nil_iff]
    intro r hr
    unfold contractPred
    simp
    exact hnone r hr
  have hpipe : pipelineRows frame (some c) none none = [] := by
    unfold pipelineRows applyStartFilter applyEndFilter sortByTimestamp
    rw [hfilter]
    rfl
  refine ⟨?_, ?_, ?_⟩
  · rw [@load_bars_ok frame (some c) none none none none rfl rfl hbars, hpipe]
    rfl
  · rw [@load_series_ok frame (some c) none none none none rfl rfl hser, hpipe]
  · intro sr hsr
    obtain ⟨hid, heq⟩ := seriesForCatalog_mem hsr
    rw [heq]
    rfl

/-- Witness for C10: querying the demo frame for contract "ES", which no row
carries. -/
theorem C10_unknown_contract_witness :
    (load_bars (some demoFrame) (some "ES") none none).result = .ok [] ∧
    (load_series (some demoFrame) (some "ES") none none).result =
      .ok (map_dataframe_to_series demoFrame.cols []) ∧
    ∀ sr ∈ map_dataframe_to_series demoFrame.cols [], sr.data = [] :=
  C10_unknown_contract (by decide) (by decide) (by decide)

/-- `trim_start` does nothing on a digit-headed input. -/
theorem trimWs_digit {c : Char} (h : isAsciiDigit c = true) (l : List Char) :
    trimWs (c :: l) = c :: l := by
  unfold trimWs
  simp [digit_not_ws h]

/-- The scanner consumes a leading digit. -/
theorem scanNumber_digit {c : Char} (h : isAsciiDigit c = true) (maxw : Option Nat)
    (l : List Char) :
    scanNumber maxw (c :: l) =
      some (takeDigits (maxw.map (· - 1)) (digitVal c) l) := by
  unfold scanNumber
  simp [h]

/-- With width budget left, the scanner folds in the next digit. -/
theorem takeDigits_digit {c : Char} {fuel : Option Nat} (h : isAsciiDigit c = true)
    (hfuel : ¬(fuel = some 0)) (acc : Nat) (l : List Char) :
    takeDigits fuel acc (c :: l) =
      takeDigits (fuel.map (· - 1)) (acc * 10 + digitVal c) l := by
  conv_lhs => rw [takeDigits]
  simp [h, hfuel]

/-- With the width budget exhausted, the scanner stops. -/
theorem takeDigits_stop (acc : Nat) (l : List Char) :
    takeDigits (some 0) acc l = (acc, l) := by
  cases l <;> simp [takeDigits]

/-- Claim C3, amended: on inputs that do match the literal `YYYY-MM-DD`
pattern, parsing succeeds exactly when the digits form a valid calendar date,
and otherwise fails with the message naming the expected `YYYY-MM-DD` format;
the pattern match is however not necessary for acceptance (see the
counterexample). -/
theorem C3_amended (y1 y2 y3 y4 m1 m2 d1 d2 : Char)
    (hy1 : isAsciiDigit y1 = true) (hy2 : isAsciiDigit y2 = true)
    (hy3 : isAsciiDigit y3 = true) (hy4 : isAsciiDigit y4 = true)
    (hm1 : isAsciiDigit m1 = true) (hm2 : isAsciiDigit m2 = true)
    (hd1 : isAsciiDigit d1 = true) (hd2 : isAsciiDigit d2 = true) :
    parse_yyyy_mm_dd ⟨[y1, y2, y3, y4, '-', m1, m2, '-', d1, d2]⟩ =
      (if isValidYmd
          ((((digitVal y1 * 10 + digitVal y2) * 10 + digitVal y3) * 10
            + digitVal y4 : Nat) : Int)
          (digitVal m1 * 10 + digitVal m2) (digitVal d1 * 10 + digitVal d2)
        then .ok ⟨((((digitVal y1 * 10 + digitVal y2) * 10 + digitVal y3) * 10
            + digitVal y4 : Nat) : Int),
          digitVal m1 * 10 + digitVal m2, digitVal d1 * 10 + digitVal d2⟩
        else .error (invalidDateMsg ⟨[y1, y2, y3, y4, '-', m1, m2, '-', d1, d2]⟩)) := by
  have hparse : parseYmdChars [y1, y2, y3, y4, '-', m1, m2, '-', d1, d2] =
      some (((((digitVal y1 * 10 + digitVal y2) * 10 + digitVal y3) * 10
          + digitVal y4 : Nat) : Int),
        digitVal m1 * 10 + digitVal m2, digitVal d1 * 10 + digitVal d2) := by
    simp [parseYmdChars, scanYear, scanField2,
      trimWs_digit hy1, trimWs_digit hm1, trimWs_digit hd1,
      digit_ne_dash hy1, digit_ne_plus hy1,
      scanNumber_digit hy1, scanNumber_digit hm1, scanNumber_digit hd1,
      hy2, hy3, hy4, hm2, hd2,
      takeDigits_digit, takeDigits_stop, expectDash]
  unfold parse_yyyy_mm_dd
  rw [show (⟨[y1, y2, y3, y4, '-', m1, m2, '-', d1, d2]⟩ : String).data =
    [y1, y2, y3, y4, '-', m1, m2, '-', d1, d2] from rfl]
  rw [hparse]

/-- Witness for the amended C3 at the digits of `2024-10-24`, with the
concrete outcome. -/
theorem C3_amended_witness :
    (parse_yyyy_mm_dd ⟨['2', '0', '2', '4', '-', '1', '0', '-', '2', '4']⟩ =
      (if isValidYmd
          ((((digitVal '2' * 10 + digitVal '0') * 10 + digitVal '2') * 10
            + digitVal '4' : Nat) : Int)
          (digitVal '1' * 10 + digitVal '0') (digitVal '2' * 10 + digitVal '4')
        then .ok ⟨((((digitVal '2' * 10 + digitVal '0') * 10 + digitVal '2') * 10
            + digitVal '4' : Nat) : Int),
          digitVal '1' * 10 + digitVal '0', digitVal '2' * 10 + digitVal '4'⟩
        else .error (invalidDateMsg
          ⟨['2', '0', '2', '4', '-', '1', '0', '-', '2', '4']⟩))) ∧
    parse_yyyy_mm_dd "2024-10-24" = .ok ⟨2024, 10, 24⟩ :=
  ⟨C3_amended '2' '0' '2' '4' '1' '0' '2' '4' (by decide) (by decide) (by decide)
      (by decide) (by decide) (by decide) (by decide) (by decide),
    rfl⟩

end TradeReview


